import Mathlib

-- Verification of the P&ID scanner pipeline (src/pid_scanner.py).
-- The PIDScanner class is embedded shallowly: the external backends
-- (pdfplumber text-layer reader, pdf2image rasterizer + pytesseract OCR,
-- the `re` regex engine, os.path.exists) are black boxes per the spec and
-- are passed in as explicit data/functions; everything else follows the
-- Python source line by line.

namespace PidScanner

-- Python ASCII whitespace characters, as recognized by str.strip().
def pyIsSpace (c : Char) : Bool :=
  c = ' ' || c = '\t' || c = '\n' || c = '\r' || c = '\x0b' || c = '\x0c'

-- Python str.strip(): drop leading and trailing whitespace characters.
-- Interior whitespace is kept.
def pyStrip (s : String) : String :=
  ⟨((s.data.dropWhile pyIsSpace).reverse.dropWhile pyIsSpace).reverse⟩

-- Python "sep".join(...) with a single-space separator (line 81 / 131).
def joinSpace (l : List String) : String :=
  String.intercalate (" ") l

-- Python s[:n] (character slice, line 151).
def pyTake (s : String) (n : Nat) : String :=
  ⟨s.data.take n⟩

-- Number of non-whitespace characters of a string.  This is the reading
-- of the 50-character threshold used by the spec sentence behind claim C1
-- ("50 characters of non-whitespace"); the code instead tests
-- len(combined_text.strip()) > 50, which keeps interior whitespace.
def nonWhitespaceLen (s : String) : Nat :=
  (s.data.filter (fun c => !(pyIsSpace c))).length

-- External per-document text backends.
-- plumberPages: the raw page.extract_text() results of pdfplumber, in page
-- order; a page returning None (or a page not reached because pdfplumber
-- raised) is modelled as "" (both are falsy at line 73).
-- ocrPages: the raw pytesseract.image_to_string outputs for the rasterized
-- pages, in page order; pages not reached because convert_from_path or a
-- page-level OCR call raised are simply absent (the exception handler at
-- lines 110-112 degrades to whatever was collected).
structure PdfBackend where
  plumberPages : List String
  ocrPages : List String
deriving DecidableEq

-- Stage 1 (lines 69-77): collect the truthy (non-empty) page texts.
def stage1Texts (b : PdfBackend) : List String :=
  b.plumberPages.filter (fun t => t != "")

-- Stage 2 (lines 91-112): collect OCR outputs whose strip() is truthy
-- (line 106: `if text.strip():`).
def stage2Texts (b : PdfBackend) : List String :=
  b.ocrPages.filter (fun t => pyStrip t != "")

-- Result of extract_text_from_pdf, instrumented with whether the OCR
-- fallback (convert_from_path rasterization, line 93) was attempted.
structure ExtractOutcome where
  texts : List String
  rasterized : Bool
deriving DecidableEq

-- PIDScanner.extract_text_from_pdf (lines 64-114).  Stage-1 output is
-- accepted iff it is non-empty and len(" ".join(text_content).strip()) > 50
-- (lines 80-83); otherwise text_content is cleared (line 88) and the OCR
-- fallback runs.
def extract_text_from_pdf (b : PdfBackend) : ExtractOutcome :=
  if stage1Texts b ≠ [] ∧ 50 < (pyStrip (joinSpace (stage1Texts b))).length then
    ⟨stage1Texts b, false⟩
  else
    ⟨stage2Texts b, true⟩

-- The `re` regex engine as a black box: re.findall(pattern, text,
-- re.IGNORECASE), returning the list of matched substrings in order.
def RegexEngine : Type :=
  String → String → List String

-- PIDScanner.extract_patterns (lines 116-122): extend over all patterns,
-- then list(set(matches)).  Python's set iteration order is unspecified,
-- so deduplication is modelled with List.dedup (same elements, no
-- duplicates; the spec declares the order unspecified).
def extract_patterns (fa : RegexEngine) (text : String) (patterns : List String) :
    List String :=
  ((patterns.map (fun p => fa p text)).flatten).dedup

-- Per-category configuration (config['extraction_settings'][category]).
-- Both keys are read with dict.get and a default (lines 138-139), so they
-- are modelled as optional.
structure CategorySettings where
  enabled : Option Bool
  patterns : Option (List String)
deriving DecidableEq

-- config['ocr_settings']['preprocessing'] toggles (lines 47-58).
structure OcrPre where
  denoise : Bool
  enhance_contrast : Bool
  sharpen : Bool
deriving DecidableEq

-- config['ocr_settings'] (dpi line 93, tesseract_config line 104).
structure OcrSettings where
  dpi : Nat
  preprocessing : OcrPre
  tesseract_config : String
deriving DecidableEq

-- The loaded configuration.  extraction_settings is a Python dict, i.e. an
-- insertion-ordered association of category name to settings.
structure Config where
  extraction_settings : List (String × CategorySettings)
  ocr_settings : OcrSettings
deriving DecidableEq

-- One category's entry of extraction_results (lines 141-144).
structure ExtractionResult where
  count : Nat
  items : List String
deriving DecidableEq

-- self.extracted_data as built at lines 147-152.
structure ScanRecord where
  pdf_path : String
  extraction_results : List (String × ExtractionResult)
  total_pages : Nat
  raw_text_preview : String
deriving DecidableEq

-- Scanner object state: self.config and self.extracted_data.  The latter
-- starts as {} (falsy, line 38) and is only ever replaced by the non-empty
-- dict of line 147, so it is modelled as an Option.
structure ScannerState where
  config : Config
  extracted_data : Option ScanRecord
deriving DecidableEq

-- The exceptions the class raises.
inductive PyError where
  | fileNotFound (msg : String)
  | valueError (msg : String)
  | keyError (msg : String)
deriving DecidableEq

-- Lines 137-144: iterate extraction_settings in order, keep the categories
-- with settings.get('enabled', True) truthy, and run extract_patterns on
-- settings.get('patterns', []).
def runResults (fa : RegexEngine) (settings : List (String × CategorySettings))
    (combined_text : String) : List (String × ExtractionResult) :=
  (settings.filter (fun cs => cs.2.enabled.getD true)).map
    (fun cs =>
      let found := extract_patterns fa combined_text (cs.2.patterns.getD [])
      (cs.1, ⟨found.length, found⟩))

-- Lines 130-152: the Scan Record built for one existing path.
def buildRecord (fa : RegexEngine) (cfg : Config) (b : PdfBackend)
    (pdf_path : String) : ScanRecord :=
  let texts := (extract_text_from_pdf b).texts
  let combined_text := joinSpace texts
  { pdf_path := pdf_path,
    extraction_results := runResults fa cfg.extraction_settings combined_text,
    total_pages := texts.length,
    raw_text_preview :=
      if 500 < combined_text.length then pyTake combined_text 500 ++ "..."
      else combined_text }

-- Result of one scan_pdf call, instrumented with whether the rasterizer
-- was touched.
structure ScanOutcome where
  rasterized : Bool
  result : Except PyError (ScanRecord × ScannerState)

-- PIDScanner.scan_pdf (lines 124-154).  fsExists models os.path.exists.
-- A missing path raises FileNotFoundError before any extraction work;
-- otherwise the record is built, stored in self.extracted_data and
-- returned.
def scan_pdf (fa : RegexEngine) (fsExists : String → Bool) (b : PdfBackend)
    (st : ScannerState) (pdf_path : String) : ScanOutcome :=
  if fsExists pdf_path = false then
    ⟨false, Except.error (PyError.fileNotFound ("PDF file not found: " ++ pdf_path))⟩
  else
    ⟨(extract_text_from_pdf b).rasterized,
     Except.ok (buildRecord fa st.config b pdf_path,
                { st with extracted_data := some (buildRecord fa st.config b pdf_path) })⟩

-- Shared message of lines 170 and 189.
def exportMsg : String :=
  "No data to export. Run scan_pdf() first."

-- One CSV row (lines 176-180).
structure CsvRow where
  category : String
  item : String
  pdf_source : String
deriving DecidableEq

-- PIDScanner.export_to_csv (lines 167-184): raise ValueError when no scan
-- has run, else flatten every (category, item) pair into one row.  The
-- returned rows are what df.to_csv writes; an error writes nothing.
def export_to_csv (st : ScannerState) : Except PyError (List CsvRow) :=
  match st.extracted_data with
  | none => Except.error (PyError.valueError exportMsg)
  | some d =>
      Except.ok (((d.extraction_results).map (fun cd =>
        (cd.2.items).map (fun item => CsvRow.mk cd.1 item d.pdf_path))).flatten)

-- PIDScanner.export_to_json (lines 186-193): raise ValueError when no scan
-- has run, else serialize the stored record verbatim.
def export_to_json (st : ScannerState) : Except PyError ScanRecord :=
  match st.extracted_data with
  | none => Except.error (PyError.valueError exportMsg)
  | some d => Except.ok d

-- Python truthiness of the optional category argument (line 202 tests
-- `if category`): None and the empty string are both falsy.
def pyTruthy (category : Option String) : Bool :=
  match category with
  | none => false
  | some s => s != ""

-- The string value of the optional category argument where it is compared.
def optStrVal (category : Option String) : String :=
  match category with
  | none => ""
  | some s => s

-- PIDScanner.filter_results (lines 195-207): empty dict when no scan has
-- run; otherwise keep an entry unless (category is truthy and the key
-- differs), and only when count >= min_count.
def filter_results (st : ScannerState) (category : Option String)
    (min_count : Int) : List (String × ExtractionResult) :=
  match st.extracted_data with
  | none => []
  | some d =>
      d.extraction_results.filter (fun cd =>
        (!(pyTruthy category && (cd.1 != optStrVal category))) &&
        decide (min_count ≤ (cd.2.count : Int)))

-- A partial new_config for update_config: dict.update replaces the
-- supplied top-level keys wholesale (shallow merge).
structure ConfigUpdate where
  extraction_settings : Option (List (String × CategorySettings))
  ocr_settings : Option OcrSettings

-- PIDScanner.update_config (lines 209-211): self.config.update(new_config).
def update_config (st : ScannerState) (new_config : ConfigUpdate) : ScannerState :=
  { st with config :=
      { extraction_settings :=
          (new_config.extraction_settings).getD st.config.extraction_settings,
        ocr_settings := (new_config.ocr_settings).getD st.config.ocr_settings } }

-- Lines 215-219 of add_custom_pattern: insert a fresh
-- {enabled: True, patterns: []} entry when the category is missing.
def withCategory (es : List (String × CategorySettings)) (category : String) :
    List (String × CategorySettings) :=
  if es.any (fun p => p.1 == category) then es
  else es ++ [(category, ⟨some true, some []⟩)]

-- PIDScanner.add_custom_pattern (lines 213-221).  Line 221 looks up
-- ['patterns'] unconditionally, so a pre-existing category without a
-- 'patterns' key raises KeyError; otherwise the pattern is appended to
-- that category's list.
def add_custom_pattern (st : ScannerState) (category pat : String) :
    Except PyError ScannerState :=
  match ((withCategory st.config.extraction_settings category).lookup category).bind
      (fun s => s.patterns) with
  | none => Except.error (PyError.keyError ("patterns"))
  | some _ =>
      Except.ok { st with config :=
        { st.config with extraction_settings :=
            (withCategory st.config.extraction_settings category).map (fun p =>
              if p.1 == category then
                (p.1, ⟨p.2.enabled, (p.2.patterns).map (fun ps => ps ++ [pat])⟩)
              else p) } }

-- Observation helpers for Except results.
def isOkB {ε α : Type _} : Except ε α → Bool
  | Except.ok _ => true
  | Except.error _ => false

def exceptErr {ε α : Type _} : Except ε α → Option ε
  | Except.ok _ => none
  | Except.error e => some e

end PidScanner

namespace PidScanner

-- Concrete sample objects used by witnesses and counterexamples.

def ocr0 : OcrSettings :=
  ⟨200, ⟨true, true, true⟩, ""⟩

def cfg0 : Config :=
  ⟨[], ocr0⟩

def st0 : ScannerState :=
  ⟨cfg0, none⟩

def faNone : RegexEngine :=
  fun _ _ => []

def fsAll : String → Bool :=
  fun _ => true

def pbEmpty : PdfBackend :=
  ⟨[], []⟩

def samplePath : String :=
  "d.pdf"

def xs60 : String :=
  String.mk (List.replicate 60 'x')

def pbText : PdfBackend :=
  ⟨[xs60], []⟩

def rEmpty : ScanRecord :=
  ⟨samplePath, [], 0, ""⟩

def stScanned : ScannerState :=
  ⟨cfg0, some rEmpty⟩

-- Inversion of a successful scan: the path existed, the flag is the
-- extractor's, the record is the built one and the new state stores it.
theorem scan_pdf_ok_inv {fa : RegexEngine} {fs : String → Bool} {b : PdfBackend}
    {st : ScannerState} {path : String} {o : Bool} {r : ScanRecord}
    {st1 : ScannerState}
    (h : scan_pdf fa fs b st path = ⟨o, Except.ok (r, st1)⟩) :
    fs path = true ∧ o = (extract_text_from_pdf b).rasterized ∧
    r = buildRecord fa st.config b path ∧
    st1 = { st with extracted_data := some r } := by
  cases hq : fs path with
  | false =>
    unfold scan_pdf at h
    rw [hq, if_pos rfl] at h
    injection h with h1 h2
    exact Except.noConfusion h2
  | true =>
    unfold scan_pdf at h
    rw [hq] at h
    rw [if_neg (by simp)] at h
    injection h with h1 h2
    injection h2 with h3
    injection h3 with h4 h5
    subst h4
    subst h5
    subst h1
    exact ⟨rfl, rfl, rfl, rfl⟩


/-- C3: scan_pdf fails exactly when the path does not exist; the failure is
the FileNotFoundError of line 127, raised before any processing, with the
rasterizer untouched; and for every existing path (any backend, including
one yielding zero text) the scan succeeds, returning the built Scan Record
and storing it in the scanner state. -/
theorem c3_scan_notfound_iff_missing (fa : RegexEngine) (fs : String → Bool)
    (b : PdfBackend) (st : ScannerState) (path : String) :
    isOkB (scan_pdf fa fs b st path).result = fs path ∧
    exceptErr (scan_pdf fa fs b st path).result =
      (if fs path = true then none
       else some (PyError.fileNotFound ("PDF file not found: " ++ path))) ∧
    (scan_pdf fa fs b st path).rasterized =
      (fs path && (extract_text_from_pdf b).rasterized) ∧
    (fs path = true →
      (scan_pdf fa fs b st path).result =
        Except.ok (buildRecord fa st.config b path,
          { st with extracted_data := some (buildRecord fa st.config b path) }) ∧
      (buildRecord fa st.config b path).pdf_path = path) := by
  cases hq : fs path with
  | false =>
    unfold scan_pdf
    rw [hq, if_pos rfl]
    exact ⟨rfl, rfl, rfl, fun hc => Bool.noConfusion hc⟩
  | true =>
    unfold scan_pdf
    rw [hq]
    rw [if_neg (by simp)]
    exact ⟨rfl, rfl, rfl, fun _ => ⟨rfl, rfl⟩⟩

/-- C3 witness: on an existing path with an all-empty backend the scan
succeeds and returns a well-formed (empty) Scan Record. -/
theorem c3_witness :
    isOkB (scan_pdf faNone fsAll pbEmpty st0 samplePath).result = fsAll samplePath ∧
    (scan_pdf faNone fsAll pbEmpty st0 samplePath).result =
      Except.ok (buildRecord faNone cfg0 pbEmpty samplePath,
        ⟨cfg0, some (buildRecord faNone cfg0 pbEmpty samplePath)⟩) ∧
    (buildRecord faNone cfg0 pbEmpty samplePath).pdf_path = samplePath :=
  ⟨(c3_scan_notfound_iff_missing faNone fsAll pbEmpty st0 samplePath).1,
   ((c3_scan_notfound_iff_missing faNone fsAll pbEmpty st0 samplePath).2.2.2 rfl).1,
   ((c3_scan_notfound_iff_missing faNone fsAll pbEmpty st0 samplePath).2.2.2 rfl).2⟩

/-- C4: both exports raise ValueError("No data to export. ...") when no scan
has run (and then produce no output), and after any successful scan neither
raises that precondition. -/
theorem c4_export_precondition (st : ScannerState) (fa : RegexEngine)
    (fs : String → Bool) (b : PdfBackend) (path : String) (o : Bool)
    (r : ScanRecord) (st1 : ScannerState) :
    (st.extracted_data = none →
      export_to_csv st = Except.error (PyError.valueError exportMsg) ∧
      export_to_json st = Except.error (PyError.valueError exportMsg)) ∧
    (scan_pdf fa fs b st path = ⟨o, Except.ok (r, st1)⟩ →
      isOkB (export_to_csv st1) = true ∧ export_to_json st1 = Except.ok r) := by
  constructor
  · intro hnone
    rw [export_to_csv, export_to_json, hnone]
    exact ⟨rfl, rfl⟩
  · intro h
    obtain ⟨-, -, -, hs⟩ := scan_pdf_ok_inv h
    subst hs
    exact ⟨rfl, rfl⟩

/-- C4 witness: the fresh scanner state raises on both exports; after one
successful scan both exports succeed. -/
theorem c4_witness :
    (export_to_csv st0 = Except.error (PyError.valueError exportMsg) ∧
     export_to_json st0 = Except.error (PyError.valueError exportMsg)) ∧
    (isOkB (export_to_csv stScanned) = true ∧
     export_to_json stScanned = Except.ok rEmpty) :=
  ⟨(c4_export_precondition st0 faNone fsAll pbEmpty samplePath true rEmpty
      stScanned).1 rfl,
   (c4_export_precondition st0 faNone fsAll pbEmpty samplePath true rEmpty
      stScanned).2 rfl⟩

/-- C6: scanning the same document twice with the same backends and an
unchanged configuration yields Scan Records with identical
extraction_results (in fact identical records). -/
theorem c6_scan_idempotent (fa : RegexEngine) (fs : String → Bool)
    (b : PdfBackend) (st : ScannerState) (path : String) (o1 o2 : Bool)
    (r1 r2 : ScanRecord) (st1 st2 : ScannerState)
    (h1 : scan_pdf fa fs b st path = ⟨o1, Except.ok (r1, st1)⟩)
    (h2 : scan_pdf fa fs b st1 path = ⟨o2, Except.ok (r2, st2)⟩) :
    r2.extraction_results = r1.extraction_results := by
  obtain ⟨-, -, hr1, hs1⟩ := scan_pdf_ok_inv h1
  obtain ⟨-, -, hr2, -⟩ := scan_pdf_ok_inv h2
  subst hs1
  rw [hr1, hr2]

/-- C6 witness: two consecutive scans of the sample document agree. -/
theorem c6_witness : rEmpty.extraction_results = rEmpty.extraction_results :=
  c6_scan_idempotent faNone fsAll pbEmpty st0 samplePath true true rEmpty rEmpty
    stScanned stScanned rfl rfl

/-- C8: configuration mutation never touches the stored Scan Record:
update_config leaves extracted_data unchanged, and add_custom_pattern, on
whichever branch it takes, returns a state whose extracted_data equals the
old one (mapping the stored record out of either outcome is the identity). -/
theorem c8_config_mutation_frame (st : ScannerState) (u : ConfigUpdate)
    (category pat : String) :
    (update_config st u).extracted_data = st.extracted_data ∧
    (add_custom_pattern st category pat).map (fun s => s.extracted_data) =
      (add_custom_pattern st category pat).map (fun _ => st.extracted_data) := by
  refine ⟨rfl, ?_⟩
  unfold add_custom_pattern
  cases ((withCategory st.config.extraction_settings category).lookup
      category).bind (fun s => s.patterns) with
  | none => rfl
  | some ps => rfl


/-- C7 (amended): the Scan Record's raw_text_preview is the whole combined
text when that text is at most 500 characters long, and otherwise its first
500 characters followed by the three-character ellipsis "..." (line 151). -/
theorem c7_preview_amended (fa : RegexEngine) (fs : String → Bool)
    (b : PdfBackend) (st : ScannerState) (path : String) (o : Bool)
    (r : ScanRecord) (st1 : ScannerState)
    (h : scan_pdf fa fs b st path = ⟨o, Except.ok (r, st1)⟩) :
    r.raw_text_preview =
      (if 500 < (joinSpace (extract_text_from_pdf b).texts).length
       then pyTake (joinSpace (extract_text_from_pdf b).texts) 500 ++ "..."
       else joinSpace (extract_text_from_pdf b).texts) := by
  obtain ⟨-, -, hr, -⟩ := scan_pdf_ok_inv h
  subst hr
  rfl

/-- C7 witness: the sample scan's preview is its (short) combined text. -/
theorem c7_witness :
    rEmpty.raw_text_preview =
      (if 500 < (joinSpace (extract_text_from_pdf pbEmpty).texts).length
       then pyTake (joinSpace (extract_text_from_pdf pbEmpty).texts) 500 ++ "..."
       else joinSpace (extract_text_from_pdf pbEmpty).texts) :=
  c7_preview_amended faNone fsAll pbEmpty st0 samplePath true rEmpty stScanned rfl

-- A one-page document whose embedded text is 501 characters long.
def c7page : String :=
  String.mk (List.replicate 501 'a')

def pbLong : PdfBackend :=
  ⟨[c7page], []⟩

def c7prev : String :=
  String.mk (List.replicate 500 'a') ++ "..."

def rLong : ScanRecord :=
  ⟨samplePath, [], 1, c7prev⟩

set_option maxRecDepth 8192 in
/-- C7 counterexample: on a 501-character combined text the stored preview
is the first 500 characters plus "...", which differs from the claimed
"first 500 characters of the combined text". -/
theorem c7_counterexample :
    (scan_pdf faNone fsAll pbLong st0 samplePath).result =
      Except.ok (rLong, ⟨cfg0, some rLong⟩) ∧
    rLong.raw_text_preview ≠
      pyTake (joinSpace (extract_text_from_pdf pbLong).texts) 500 := by
  exact ⟨rfl, by decide⟩

/-- C9 (amended): total_pages is the number of collected page texts of the
stage that was used — pages whose raw text layer is non-empty when stage 1
is accepted, and pages whose OCR output is non-whitespace when the OCR
fallback ran — not the source document's page count; a document all of
whose pages yield empty text gives total_pages = 0 (witnessed). -/
theorem c9_total_pages_amended (fa : RegexEngine) (fs : String → Bool)
    (b : PdfBackend) (st : ScannerState) (path : String) (o : Bool)
    (r : ScanRecord) (st1 : ScannerState)
    (h : scan_pdf fa fs b st path = ⟨o, Except.ok (r, st1)⟩) :
    r.total_pages = (extract_text_from_pdf b).texts.length ∧
    (extract_text_from_pdf b).texts.length =
      (if (extract_text_from_pdf b).rasterized = true
       then (b.ocrPages.filter (fun t => pyStrip t != "")).length
       else (b.plumberPages.filter (fun t => t != "")).length) := by
  obtain ⟨-, -, hr, -⟩ := scan_pdf_ok_inv h
  subst hr
  refine ⟨rfl, ?_⟩
  by_cases hc : stage1Texts b ≠ [] ∧ 50 < (pyStrip (joinSpace (stage1Texts b))).length
  · have hE : extract_text_from_pdf b = ⟨stage1Texts b, false⟩ := by
      unfold extract_text_from_pdf
      exact if_pos hc
    rw [hE]
    rfl
  · have hE : extract_text_from_pdf b = ⟨stage2Texts b, true⟩ := by
      unfold extract_text_from_pdf
      exact if_neg hc
    rw [hE]
    rfl

/-- C9 witness: a document with no text at all yields total_pages = 0. -/
theorem c9_witness :
    rEmpty.total_pages = (extract_text_from_pdf pbEmpty).texts.length ∧
    (extract_text_from_pdf pbEmpty).texts.length =
      (if (extract_text_from_pdf pbEmpty).rasterized = true
       then (pbEmpty.ocrPages.filter (fun t => pyStrip t != "")).length
       else (pbEmpty.plumberPages.filter (fun t => t != "")).length) :=
  c9_total_pages_amended faNone fsAll pbEmpty st0 samplePath true rEmpty
    stScanned rfl

-- A document with no text layer whose single page OCRs to one space.
def pbWs : PdfBackend :=
  ⟨[], [" "]⟩

/-- C9 counterexample: the OCR stage is the chosen stage and it produced
non-empty text (" ") for one page, yet the Scan Record's total_pages is 0,
because line 106 drops whitespace-only OCR output. -/
theorem c9_counterexample :
    (extract_text_from_pdf pbWs).rasterized = true ∧
    (pbWs.ocrPages.filter (fun t => t != "")).length = 1 ∧
    (scan_pdf faNone fsAll pbWs st0 samplePath).result =
      Except.ok (⟨samplePath, [], 0, ""⟩,
                 ⟨cfg0, some ⟨samplePath, [], 0, ""⟩⟩) := by
  exact ⟨rfl, rfl, rfl⟩

/-- C10: a configured category whose settings omit 'enabled' is treated as
enabled and appears in extraction_results (with the extracted matches), and
a category whose (truthy-or-omitted-enabled) settings omit 'patterns' is
processed with an empty pattern list, yielding count 0 and empty items
rather than an error. -/
theorem c10_default_settings (fa : RegexEngine) (fs : String → Bool)
    (b : PdfBackend) (st : ScannerState) (path : String) (o : Bool)
    (r : ScanRecord) (st1 : ScannerState) (cat : String)
    (s : CategorySettings)
    (h : scan_pdf fa fs b st path = ⟨o, Except.ok (r, st1)⟩)
    (hmem : (cat, s) ∈ st.config.extraction_settings) :
    (s.enabled = none →
      (cat, ExtractionResult.mk
        (extract_patterns fa (joinSpace (extract_text_from_pdf b).texts)
          (s.patterns.getD [])).length
        (extract_patterns fa (joinSpace (extract_text_from_pdf b).texts)
          (s.patterns.getD []))) ∈ r.extraction_results) ∧
    (s.enabled.getD true = true ∧ s.patterns = none →
      (cat, ExtractionResult.mk 0 []) ∈ r.extraction_results) := by
  obtain ⟨-, -, hr, -⟩ := scan_pdf_ok_inv h
  subst hr
  constructor
  · intro hen
    exact List.mem_map.mpr ⟨(cat, s),
      List.mem_filter.mpr ⟨hmem, by simp [hen]⟩, rfl⟩
  · rintro ⟨hen, hpat⟩
    refine List.mem_map.mpr ⟨(cat, s), List.mem_filter.mpr ⟨hmem, hen⟩, ?_⟩
    rw [hpat]
    rfl

-- A configuration with one category that sets neither key.
def cfgMisc : Config :=
  ⟨[("misc", ⟨none, none⟩)], ocr0⟩

def stMisc : ScannerState :=
  ⟨cfgMisc, none⟩

def rMisc : ScanRecord :=
  ⟨samplePath, [("misc", ⟨0, []⟩)], 0, ""⟩

/-- C10 witness: the category "misc", configured with neither 'enabled' nor
'patterns', appears in the results with count 0 and no items. -/
theorem c10_witness :
    (("misc", ExtractionResult.mk 0 []) ∈ rMisc.extraction_results) ∧
    (("misc", ExtractionResult.mk 0 []) ∈ rMisc.extraction_results) :=
  ⟨(c10_default_settings faNone fsAll pbEmpty stMisc samplePath true rMisc
      ⟨cfgMisc, some rMisc⟩ ("misc") ⟨none, none⟩ rfl (by decide)).1 rfl,
   (c10_default_settings faNone fsAll pbEmpty stMisc samplePath true rMisc
      ⟨cfgMisc, some rMisc⟩ ("misc") ⟨none, none⟩ rfl (by decide)).2 ⟨rfl, rfl⟩⟩


/-- C5 (amended): filter_results returns exactly the entries of the last
Scan Record's extraction_results whose count is at least min_count
(inclusive) and whose category equals the given name whenever the given
name is truthy (non-None and non-empty; an empty-string category disables
the category filter just like omitting it, line 202); the result is empty
when no scan has run. -/
theorem c5_filter_characterization (st : ScannerState) (category : Option String)
    (min_count : Int) (cd : String × ExtractionResult) :
    (cd ∈ filter_results st category min_count ↔
      (∃ d, st.extracted_data = some d ∧ cd ∈ d.extraction_results) ∧
      (pyTruthy category = true → cd.1 = optStrVal category) ∧
      min_count ≤ (cd.2.count : Int)) ∧
    (st.extracted_data = none → filter_results st category min_count = []) := by
  constructor
  · cases hd : st.extracted_data with
    | none => simp [filter_results, hd]
    | some d =>
      simp only [filter_results, hd, List.mem_filter, Option.some.injEq,
        Bool.and_eq_true, Bool.not_eq_true', Bool.and_eq_false_iff,
        bne_eq_false_iff_eq, decide_eq_true_eq]
      constructor
      · rintro ⟨hm, hskip, hcount⟩
        refine ⟨⟨d, rfl, hm⟩, ?_, hcount⟩
        intro ht
        rcases hskip with hf | he
        · rw [ht] at hf
          exact Bool.noConfusion hf
        · exact he
      · rintro ⟨⟨d2, hd2, hm⟩, himp, hcount⟩
        cases hd2
        refine ⟨hm, ?_, hcount⟩
        cases ht : pyTruthy category with
        | false => exact Or.inl rfl
        | true => exact Or.inr (himp ht)
  · intro hd
    simp [filter_results, hd]

/-- C5 witness: with no scan run, filtering yields the empty map. -/
theorem c5_witness : filter_results st0 (some ("valves")) 0 = [] :=
  (c5_filter_characterization st0 (some ("valves")) 0
    (samplePath, ⟨0, []⟩)).2 rfl

-- A state holding one scanned category, "valves".
def rValves : ScanRecord :=
  ⟨samplePath, [("valves", ⟨1, ["HV-202"]⟩)], 1, "t"⟩

def stValves : ScannerState :=
  ⟨cfg0, some rValves⟩

/-- C5 counterexample: when the given category name is the empty string the
code disables the category filter (line 202 tests Python truthiness), so
filter_results returns the "valves" entry even though its key differs from
the given name "". -/
theorem c5_counterexample :
    filter_results stValves (some ("")) 0 =
      [("valves", ⟨1, ["HV-202"]⟩)] ∧
    ("valves" : String) ≠ "" := by
  exact ⟨rfl, by decide⟩


/-- C2: every category entry of a scan's extraction_results has duplicate-
free items (each matched string occurs at most once even when several
patterns matched it), its count equals the number of distinct items, and
its items are exactly the union of the matches of all of that category's
configured patterns over the combined text. -/
theorem c2_items_deduplicated (fa : RegexEngine) (fs : String → Bool)
    (b : PdfBackend) (st : ScannerState) (path : String) (o : Bool)
    (r : ScanRecord) (st1 : ScannerState) (cd : String × ExtractionResult)
    (h : scan_pdf fa fs b st path = ⟨o, Except.ok (r, st1)⟩)
    (hcd : cd ∈ r.extraction_results) :
    cd.2.items.Nodup ∧
    cd.2.count = cd.2.items.length ∧
    (∀ s, cd.2.items.count s ≤ 1) ∧
    (∃ cs, cs ∈ st.config.extraction_settings ∧ cs.1 = cd.1 ∧
      cs.2.enabled.getD true = true ∧
      (∀ s, s ∈ cd.2.items ↔
        ∃ p, p ∈ cs.2.patterns.getD [] ∧
          s ∈ fa p (joinSpace (extract_text_from_pdf b).texts))) := by
  obtain ⟨-, -, hr, -⟩ := scan_pdf_ok_inv h
  subst hr
  simp only [buildRecord, runResults, List.mem_map, List.mem_filter] at hcd
  obtain ⟨cs, ⟨hmem, hen⟩, heq⟩ := hcd
  subst heq
  refine ⟨List.nodup_dedup _, rfl, ?_, cs, hmem, rfl, hen, ?_⟩
  · intro s
    exact List.nodup_iff_count_le_one.mp (List.nodup_dedup _) s
  · intro s
    simp [extract_patterns, List.mem_dedup, List.mem_flatten, List.mem_map]

-- A regex engine under which two configured patterns match the same
-- substring "X" of any text.
def faDup : RegexEngine :=
  fun p _ =>
    if p = "pa" then ["X"] else if p = "pb" then ["X"] else []

def cfgDup : Config :=
  ⟨[("tags", ⟨none, some ["pa", "pb"]⟩)], ocr0⟩

def stDup : ScannerState :=
  ⟨cfgDup, none⟩

def rDup : ScanRecord :=
  ⟨samplePath, [("tags", ⟨1, ["X"]⟩)], 1, xs60⟩

/-- C2 witness: two patterns matching the same substring "X" yield one item
with count 1. -/
theorem c2_witness :
    (["X"] : List String).Nodup ∧ (1 : Nat) = (["X"] : List String).length :=
  ⟨(c2_items_deduplicated faDup fsAll pbText stDup samplePath false rDup
      ⟨cfgDup, some rDup⟩ ("tags", ⟨1, ["X"]⟩) rfl (by decide)).1,
   (c2_items_deduplicated faDup fsAll pbText stDup samplePath false rDup
      ⟨cfgDup, some rDup⟩ ("tags", ⟨1, ["X"]⟩) rfl (by decide)).2.1⟩


-- A one-page document whose embedded text layer is "a", 60 spaces, "b":
-- only 2 non-whitespace characters, but str.strip() removes nothing
-- (the ends are non-whitespace), so len(strip) = 62 > 50.
def wsGap : String :=
  String.mk (List.replicate 60 ' ')

def c1page : String :=
  ("a" ++ wsGap) ++ "b"

def pbSparse : PdfBackend :=
  ⟨[c1page], ["OCRTEXT"]⟩

/-- C1 counterexample: the combined stage-1 text has at most 50 characters
of non-whitespace (it has 2), so by the claim the stage-1 output should be
discarded and the OCR fallback attempted; the code instead accepts stage 1
and never rasterizes, because len(combined.strip()) = 62 > 50 counts the
interior spaces. -/
theorem c1_counterexample :
    nonWhitespaceLen (joinSpace (stage1Texts pbSparse)) ≤ 50 ∧
    extract_text_from_pdf pbSparse = ⟨[c1page], false⟩ := by
  exact ⟨by decide, by decide⟩

/-- C1 (amended): stage-1 output is accepted — the per-page stage-1 texts
are returned and the rasterizer is never invoked, also by a full scan —
exactly when stage 1 collected at least one page and the combined text
joined with single spaces has length exceeding 50 after stripping leading
and trailing whitespace only (interior whitespace counts toward the
threshold); otherwise stage-1 output is discarded and the OCR fallback is
attempted. -/
theorem c1_stage1_threshold (fa : RegexEngine) (fs : String → Bool)
    (st : ScannerState) (path : String) (b bq : PdfBackend)
    (h1 : 50 < (pyStrip (joinSpace (stage1Texts b))).length)
    (h2 : ¬(stage1Texts bq ≠ [] ∧
        50 < (pyStrip (joinSpace (stage1Texts bq))).length)) :
    extract_text_from_pdf b = ⟨stage1Texts b, false⟩ ∧
    (scan_pdf fa fs b st path).rasterized = false ∧
    extract_text_from_pdf bq = ⟨stage2Texts bq, true⟩ := by
  have hne : stage1Texts b ≠ [] := by
    intro he
    rw [he] at h1
    exact absurd h1 (by decide)
  have hE : extract_text_from_pdf b = ⟨stage1Texts b, false⟩ := by
    unfold extract_text_from_pdf
    exact if_pos ⟨hne, h1⟩
  refine ⟨hE, ?_, ?_⟩
  · cases hq : fs path with
    | false =>
      unfold scan_pdf
      rw [hq, if_pos rfl]
    | true =>
      unfold scan_pdf
      rw [hq]
      rw [if_neg (by simp)]
      rw [hE]
  · unfold extract_text_from_pdf
    exact if_neg h2

/-- C1 witness: a 60-character single-page text layer is accepted with no
rasterization, and an empty text layer falls back to OCR. -/
theorem c1_witness :
    extract_text_from_pdf pbText = ⟨stage1Texts pbText, false⟩ ∧
    (scan_pdf faNone fsAll pbText st0 samplePath).rasterized = false ∧
    extract_text_from_pdf pbEmpty = ⟨stage2Texts pbEmpty, true⟩ :=
  c1_stage1_threshold faNone fsAll st0 samplePath pbText pbEmpty (by decide)
    (by decide)

end PidScanner
